import Mathlib

/-!
Verification of the `aba` agent system's conversation-orchestration core.

The definitions below are a shallow embedding of the Python source:

* `src/aba/capabilities.py`  — capability registry
* `src/aba/tools.py`         — tool catalog (declared signatures)
* `src/aba/tool_schema.py`   — schema extraction (`_python_type_to_json_type`)
* `src/aba/web/agent_session.py` — async session (`AgentSession`)
* `src/aba/web/streaming_model.py` — SSE streaming client

Python `dict`s whose insertion order matters are modelled as association
lists with dict update semantics; `json.loads`/`json.dumps` (standard
library, external to the repository) appear as oracle parameters or as the
identity on already-structured data.
-/

namespace Aba

/-- JSON values, the result of `json.loads` on tool-call argument strings
and the value space of persisted transcript records. -/
inductive JVal where
  | str (s : String)
  | num (n : Int)
  | bool (b : Bool)
  | null
  | arr (xs : List JVal)
  | obj (fields : List (String × JVal))

/-- A parsed tool-argument object (a Python `dict[str, Any]` from `json.loads`). -/
abbrev Args := List (String × JVal)

/-- Association-list lookup, modelling Python `d[k]` / `d.get(k)`. -/
def assocLookup {α : Type} (l : List (String × α)) (k : String) : Option α :=
  match l.find? (fun p => p.1 == k) with
  | some p => some p.2
  | none => none

/-- Association-list lookup with `Nat` keys (the streaming tool-call accumulator). -/
def natLookup {α : Type} (l : List (Nat × α)) (k : Nat) : Option α :=
  match l.find? (fun p => p.1 == k) with
  | some p => some p.2
  | none => none

/-- `d[k] = v` on a Python dict: overwrite in place if the key exists,
otherwise append (insertion order preserved). -/
def natSet {α : Type} (l : List (Nat × α)) (k : Nat) (v : α) : List (Nat × α) :=
  match l with
  | [] => [(k, v)]
  | (k', v') :: rest =>
      if k' = k then (k, v) :: rest else (k', v') :: natSet rest k v

/-! ## Capability registry (`src/aba/capabilities.py`) -/

/-- `Capability` dataclass: name, description, tool names, prompt addendum. -/
structure Capability where
  name : String
  description : String
  tools : List String
  systemPromptAddition : String

/-- The `CAPABILITIES` registry, exactly the four entries of `capabilities.py`
(prompt addenda abbreviated to their first sentence; only their non-emptiness
and the `tools` lists bear on the claims). -/
def CAPABILITIES : List (String × Capability) :=
  [ ("agent-creation",
     { name := "agent-creation"
       description := "Create and modify agent definitions"
       tools := ["create_agent", "modify_agent", "delete_agent", "list_agents",
                 "get_agent_details"]
       systemPromptAddition :=
         "You can create new agents by specifying their name, description, and capabilities." }),
    ("file-operations",
     { name := "file-operations"
       description := "Read and write files on the local system"
       tools := ["read_file", "write_file", "list_files", "delete_file"]
       systemPromptAddition :=
         "You can read and write files using the file operation tools." }),
    ("code-execution",
     { name := "code-execution"
       description := "Execute Python and shell commands"
       tools := ["exec_python", "exec_shell"]
       systemPromptAddition :=
         "You can execute Python code and shell commands using the code execution tools." }),
    ("web-access",
     { name := "web-access"
       description := "Search and fetch web content"
       tools := ["web_search", "web_fetch"]
       systemPromptAddition :=
         "You can search the web and fetch content from URLs using the web access tools." }) ]

/-! ## Schema extraction (`src/aba/tool_schema.py`) -/

/-- Resolved Python type objects that occur as annotations after
`typing.get_type_hints` evaluation. -/
inductive PyTypeObj where
  | pyStr
  | pyInt
  | pyFloat
  | pyBool
  | pyList
  | pyDict
  | pyOptionalListStr
  | pyOptionalAgentManager
  | pyAny
deriving DecidableEq, Repr

/-- A Python type annotation as received by `_python_type_to_json_type`:
either a resolved type object or (defensively, in the source) a string
representation. -/
inductive PyType where
  | obj (t : PyTypeObj)
  | strRepr (s : String)
deriving DecidableEq, Repr

/-- Does `sub` occur at the head of `hay`? -/
def charsStartWith : List Char → List Char → Bool
  | [], _ => true
  | _ :: _, [] => false
  | c :: cs, d :: ds => c == d && charsStartWith cs ds

/-- Does `sub` occur anywhere in `hay`? -/
def charsContain (hay sub : List Char) : Bool :=
  if charsStartWith sub hay then true
  else
    match hay with
    | [] => false
    | _ :: t => charsContain t sub

/-- Substring containment, modelling Python's `in` on strings. -/
def strContainsSub (s sub : String) : Bool :=
  charsContain s.data sub.data

/-- Python `s.startswith(pre)` (code-point based, like `List Char`). -/
def strStartsWith (s pre : String) : Bool :=
  charsStartWith pre.data s.data

/-- Python `s[:n]` (code-point based slicing). -/
def pyTake (s : String) (n : Nat) : String :=
  ⟨s.data.take n⟩

/-- Python `len(s)` (number of code points). -/
def pyLen (s : String) : Nat :=
  s.data.length

/-- `_python_type_to_json_type` (tool_schema.py lines 182-216): the string
branch does lowercase substring tests; the type branch is an exact lookup in
`type_map` defaulting to `"string"`. -/
def pythonTypeToJsonType : PyType → String
  | .strRepr s =>
      let ls := s.toLower
      if strContainsSub ls "str" then "string"
      else if strContainsSub ls "int" then "integer"
      else if strContainsSub ls "float" then "number"
      else if strContainsSub ls "bool" then "boolean"
      else if strContainsSub ls "list" || strContainsSub ls "array" then "array"
      else "string"
  | .obj t =>
      match t with
      | .pyStr => "string"
      | .pyInt => "integer"
      | .pyFloat => "number"
      | .pyBool => "boolean"
      | .pyList => "array"
      | .pyDict => "object"
      | _ => "string"

/-- One parameter of a tool's declared Python signature: its name, its
annotation (as resolved by `get_type_hints`; `none` if unannotated) and
whether it carries a default value. -/
structure PyParam where
  name : String
  annot : Option PyType
  hasDefault : Bool
deriving DecidableEq, Repr

/-- Extracted wire-schema parameter (`ToolParameter` sans description). -/
structure ToolParameter where
  name : String
  type : String
  required : Bool
deriving DecidableEq, Repr

/-- The parameter-extraction loop of the `tool` decorator (tool_schema.py
lines 103-123): skip `_`-prefixed names, map the annotation (defaulting to
`str` when absent, as `type_hints.get(param_name, str)` does), and mark
`required` iff there is no default value. -/
def extractParams (ps : List PyParam) : List ToolParameter :=
  (ps.filter (fun p => ! strStartsWith p.name "_")).map fun p =>
    { name := p.name
      type := pythonTypeToJsonType (p.annot.getD (.obj .pyStr))
      required := ! p.hasDefault }

/-! ## Tool catalog (`src/aba/tools.py`) -/

/-- A tool's declared signature, in declaration order. -/
structure ToolDecl where
  params : List PyParam
deriving DecidableEq, Repr

/-- Shorthand for a required `str` parameter. -/
def strParam (n : String) : PyParam := ⟨n, some (.obj .pyStr), false⟩

/-- Shorthand for the `_manager: AgentManager | None = None` parameter. -/
def managerParam : PyParam := ⟨"_manager", some (.obj .pyOptionalAgentManager), true⟩

/-- The `TOOL_SCHEMAS` catalog: the fourteen tools of `tools.py` with their
declared signatures. -/
def TOOL_SCHEMAS : List (String × ToolDecl) :=
  [ ("create_agent", ⟨[strParam "name", strParam "description",
        ⟨"capabilities", some (.obj .pyOptionalListStr), true⟩,
        ⟨"system_prompt", some (.obj .pyStr), true⟩, managerParam]⟩),
    ("modify_agent", ⟨[strParam "name", managerParam,
        ⟨"updates", some (.obj .pyAny), false⟩]⟩),
    ("delete_agent", ⟨[strParam "name", managerParam]⟩),
    ("list_agents", ⟨[managerParam]⟩),
    ("get_agent_details", ⟨[strParam "name", managerParam]⟩),
    ("read_file", ⟨[strParam "path"]⟩),
    ("write_file", ⟨[strParam "path", strParam "content"]⟩),
    ("list_files", ⟨[⟨"path", some (.obj .pyStr), true⟩]⟩),
    ("delete_file", ⟨[strParam "path"]⟩),
    ("exec_python", ⟨[strParam "code"]⟩),
    ("exec_shell", ⟨[strParam "command"]⟩),
    ("web_search", ⟨[strParam "query"]⟩),
    ("web_fetch", ⟨[strParam "url"]⟩),
    ("get_context_info", ⟨[⟨"_runtime", some (.obj .pyAny), true⟩]⟩) ]

/-- The annotations that schema extraction actually maps: for each tool, the
resolved annotation of each non-`_`-prefixed declared parameter. -/
def toolMappedAnnotations : List PyType :=
  TOOL_SCHEMAS.flatMap fun td =>
    ((td.2.params.filter (fun p => ! strStartsWith p.name "_")).map
      (fun p => p.annot.getD (.obj .pyStr)))

/-- Modelled from the spec: the claimed wire-type mapping — `str`, `int`,
`float`, `bool`, `list` to their wire types, every other annotation to
`"string"`. Stated for comparison with `pythonTypeToJsonType`. -/
def specWireType : PyType → String
  | .obj .pyStr => "string"
  | .obj .pyInt => "integer"
  | .obj .pyFloat => "number"
  | .obj .pyBool => "boolean"
  | .obj .pyList => "array"
  | _ => "string"

/-! ## Granted-tool resolution (`AgentSession._load_tools`, agent_session.py
lines 53-74; identically `AgentRuntime._load_tools`, runtime.py 34-55) -/

/-- `d[k] = v` key effect on a Python dict's key list: first insertion fixes
the position, later assignments keep it. -/
def dictInsertKey (ks : List String) (k : String) : List String :=
  if k ∈ ks then ks else ks ++ [k]

/-- The inner loop of `_load_tools`: add each of a capability's tool names
that is present in `TOOL_SCHEMAS`. -/
def addCapTools (acc : List String) (cap : Capability) : List String :=
  cap.tools.foldl
    (fun acc2 t =>
      if (assocLookup TOOL_SCHEMAS t).isSome then dictInsertKey acc2 t else acc2)
    acc

/-- One step of the outer loop of `_load_tools`: capability names missing
from the registry contribute nothing (`continue`). -/
def addCapability (acc : List String) (capName : String) : List String :=
  match assocLookup CAPABILITIES capName with
  | none => acc
  | some cap => addCapTools acc cap

/-- `_load_tools`: union the tool names of the registered granted
capabilities, keeping only names present in `TOOL_SCHEMAS`, then always add
`get_context_info` (guarded, as in the source, by its catalog membership).
Returns the key list of the resulting dict. -/
def loadTools (capabilities : List String) : List String :=
  let ks := capabilities.foldl addCapability []
  if (assocLookup TOOL_SCHEMAS "get_context_info").isSome then
    dictInsertKey ks "get_context_info"
  else ks

/-! ## Durable history (`AgentSession._load_history` / `_save_history`,
agent_session.py lines 87-135) -/

/-- Token usage statistics. A present `Usage` models a non-empty usage dict
(the streaming model always supplies the three keys); the absent-or-empty
dict is modelled as `Option.none` where the field is optional. -/
structure Usage where
  promptTokens : Nat
  completionTokens : Nat
  totalTokens : Nat
deriving DecidableEq, Repr

/-- One recorded tool call in an agent history entry
(agent_session.py lines 354-360). -/
structure ToolCallRecord where
  toolName : String
  arguments : List (String × JVal)
  result : String
  success : Bool
  resultLength : Nat

/-- History-entry metadata: `tool_calls` and `usage`
(`none` models an absent or empty usage dict). -/
structure Meta where
  toolCalls : List ToolCallRecord
  usage : Option Usage

/-- An in-memory history item: the `(role, message, metadata)` tuple. -/
structure HistEntry where
  role : String
  message : String
  meta : Meta

/-- A persisted transcript record: `role` and `message` always present,
`tool_calls` and `usage` keys only when they were written. -/
structure SavedEntry where
  role : String
  message : String
  toolCalls : Option (List ToolCallRecord)
  usage : Option Usage

/-- The record `_save_history` writes for one entry (lines 125-132):
`role`/`message` always, `tool_calls`/`usage` only when truthy (non-empty
list, non-empty dict). -/
def saveEntry (e : HistEntry) : SavedEntry :=
  { role := e.role
    message := e.message
    toolCalls := if e.meta.toolCalls.isEmpty then none else some e.meta.toolCalls
    usage := e.meta.usage }

/-- The tuple `_load_history` rebuilds from one record (lines 103-111),
defaulting `tool_calls` to `[]` and `usage` to the empty dict. -/
def loadEntry (item : SavedEntry) : HistEntry :=
  { role := item.role
    message := item.message
    meta := { toolCalls := item.toolCalls.getD [], usage := item.usage } }

/-- `_save_history` (lines 118-135). JSON serialization of the resulting
records is the standard library's and is not re-modelled. -/
def saveHistory (h : List HistEntry) : List SavedEntry :=
  h.map saveEntry

/-- `_load_history` (lines 87-116). -/
def loadHistory (d : List SavedEntry) : List HistEntry :=
  d.map loadEntry

/-! ## System prompt and live message window
(`AgentSession._build_system_prompt` / `_format_tool_calls_for_context` /
`_build_messages`, agent_session.py lines 137-222) -/

mutual

/-- Python `repr` on the JSON values appearing in recorded tool arguments
(standard library; apostrophe-quoted strings, `True`/`False`/`None`). -/
def pyRepr : JVal → String
  | .str s => "'" ++ s ++ "'"
  | .num n => toString n
  | .bool true => "True"
  | .bool false => "False"
  | .null => "None"
  | .arr xs => "[" ++ String.intercalate ", " (pyReprList xs) ++ "]"
  | .obj fs => "\x7b" ++ String.intercalate ", " (pyReprFields fs) ++ "\x7d"

/-- `repr` of each element of a JSON array. -/
def pyReprList : List JVal → List String
  | [] => []
  | v :: vs => pyRepr v :: pyReprList vs

/-- `repr` of each `key: value` pair of a JSON object. -/
def pyReprFields : List (String × JVal) → List String
  | [] => []
  | (k, v) :: fs => ("'" ++ k ++ "': " ++ pyRepr v) :: pyReprFields fs

end

/-- `_format_tool_calls_for_context` (lines 137-164): render recorded tool
calls for inclusion in the upstream context. -/
def formatToolCallsForContext (toolCalls : List ToolCallRecord) : String :=
  if toolCalls.isEmpty then ""
  else
    let lines := "[Tools used:" :: toolCalls.map fun tc =>
      let argsStr := String.intercalate ", "
        (tc.arguments.map fun kv => kv.1 ++ "=" ++ pyRepr kv.2)
      let resultPreview :=
        if pyLen tc.result > 100 then pyTake tc.result 100 ++ "..." else pyTake tc.result 100
      let status := if tc.success then "success" else "error"
      "  " ++ tc.toolName ++ "(" ++ argsStr ++ ") → " ++ status ++ ": " ++ resultPreview ++ "]"
    String.intercalate "\n" lines ++ "]"

/-- `_build_system_prompt` (lines 166-181; identically runtime.py 57-75):
the agent's own prompt when non-empty, then each registered granted
capability's addendum, joined by blank lines. -/
def buildSystemPrompt (agentSystemPrompt : String) (capabilities : List String) : String :=
  let parts :=
    (if agentSystemPrompt ≠ "" then [agentSystemPrompt] else []) ++
    capabilities.filterMap fun c => (assocLookup CAPABILITIES c).map (·.systemPromptAddition)
  String.intercalate "\n\n" parts

/-- An accumulated tool call as delivered in a `tool_calls` stream chunk
(the streaming accumulator entry: id, type, function name, arguments JSON). -/
structure AccCall where
  id : String
  typeField : String
  name : String
  arguments : String
deriving DecidableEq, Repr

/-- A message of the live window sent upstream. -/
structure Msg where
  role : String
  content : Option String
  toolCalls : List AccCall := []
  toolCallId : Option String := none

/-- The image of one history entry in the live window (`_build_messages`
lines 208-217): non-user roles map to `assistant`; agent entries with
recorded tool calls get the tool summary appended. -/
def histEntryToMsg (e : HistEntry) : Msg :=
  let apiRole := if e.role = "user" then "user" else "assistant"
  let content :=
    if e.role == "agent" && ! e.meta.toolCalls.isEmpty then
      e.message ++ "\n\n" ++ formatToolCallsForContext e.meta.toolCalls
    else e.message
  { role := apiRole, content := some content }

/-- `_build_messages` (lines 191-222): optional system message (only when
the assembled prompt is non-empty), the last 20 history entries, then the
current user input. -/
def buildMessages (systemPrompt : String) (history : List HistEntry)
    (userInput : String) : List Msg :=
  (if systemPrompt ≠ "" then [{ role := "system", content := some systemPrompt }] else []) ++
  ((history.drop (history.length - 20)).map histEntryToMsg) ++
  [{ role := "user", content := some userInput }]

/-! ## Streaming model client (`StreamingOpenRouterModel.chat_stream`,
streaming_model.py lines 30-238) -/

/-- A `delta.tool_calls[j]` fragment: every field optional. -/
structure FuncDelta where
  name : Option String
  arguments : Option String
deriving DecidableEq, Repr

/-- One streamed tool-call delta fragment. -/
structure ToolCallDelta where
  index : Option Nat
  id : Option String
  typeField : Option String
  func : Option FuncDelta
deriving DecidableEq, Repr

/-- `choices[0].delta`: `content` is `none` when the key is absent or null. -/
structure DeltaObj where
  content : Option String := none
  toolCalls : Option (List ToolCallDelta) := none
deriving DecidableEq, Repr

/-- `choices[0]` of an upstream chunk. -/
structure ChoiceObj where
  delta : DeltaObj := {}
  finishReason : Option String := none
deriving DecidableEq, Repr

/-- A parsed upstream SSE chunk. `errorMsg` models a present top-level
`error` object with its resolved message; `choices = none` models a missing
`choices` key (a `KeyError` in the source). -/
structure UpChunk where
  errorMsg : Option String := none
  choices : Option (List ChoiceObj) := none
  usage : Option Usage := none
deriving DecidableEq, Repr

/-- One received SSE line, with the standard library's JSON parse outcome
attached to data lines as environment input. -/
inductive SSELine where
  | blank
  | comment (s : String)
  | nonData (s : String)
  | doneMarker
  | badJson (e : String)
  | chunk (c : UpChunk)
deriving DecidableEq, Repr

/-- An event yielded by `chat_stream` (the `type` discriminated dicts). -/
inductive StreamEvent where
  | content (delta : String)
  | toolCallsEv (calls : List AccCall)
  | done (finishReason : String) (usage : Usage)
  | error (message : String)
deriving DecidableEq, Repr

/-- Transport-level exceptions of the upstream call
(streaming_model.py lines 221-238). -/
inductive TransportExc where
  | timeout
  | remoteProtocol (msg : String)
  | other (msg : String)
deriving DecidableEq, Repr

/-- The error message produced for each transport exception (the `timeout`
field keeps its default 60.0). -/
def excMsg : TransportExc → String
  | .timeout => "Request timed out after 60.0 seconds"
  | .remoteProtocol m => "Connection error: " ++ m
  | .other m => "Streaming error: " ++ m

/-- The error event produced for each transport exception. -/
def excEvent (e : TransportExc) : StreamEvent :=
  .error (excMsg e)

/-- A fresh accumulator entry (streaming_model.py lines 153-161). -/
def emptyAccCall : AccCall := { id := "", typeField := "function", name := "", arguments := "" }

/-- Applying one tool-call delta fragment to the accumulator
(streaming_model.py lines 149-175): default the index to 0, initialize the
entry on first occurrence, overwrite `id`/`type`/`name` when present, append
an arguments fragment when present. -/
def applyToolCallDelta (acc : List (Nat × AccCall)) (d : ToolCallDelta) :
    List (Nat × AccCall) :=
  let index := d.index.getD 0
  let entry := (natLookup acc index).getD emptyAccCall
  let entry := { entry with
    id := d.id.getD entry.id
    typeField := d.typeField.getD entry.typeField }
  let entry :=
    match d.func with
    | none => entry
    | some f => { entry with
        name := f.name.getD entry.name
        arguments := entry.arguments ++ (f.arguments.getD "") }
  natSet acc index entry

/-- The calls emitted on `finish_reason == "tool_calls"` (lines 182-185):
the accumulated entries listed by ascending index. -/
def sortedCalls (acc : List (Nat × AccCall)) : List AccCall :=
  ((acc.map Prod.fst).insertionSort (· ≤ ·)).map
    fun i => (natLookup acc i).getD emptyAccCall

/-- How the line-processing loop was left. -/
inductive LoopExit where
  | ranOut
  | broke
  | returned
deriving DecidableEq, Repr

/-- The events produced for one parsed chunk, the updated accumulator, and
whether the stream `return`s (an upstream-reported error object). -/
def processChunk (acc : List (Nat × AccCall)) (c : UpChunk) :
    List StreamEvent × List (Nat × AccCall) × Bool :=
  match c.errorMsg with
  | some m => ([.error m], acc, true)
  | none =>
      match c.choices with
      | none => ([.error "Malformed chunk: 'choices'"], acc, false)
      | some [] => ([.error "Malformed chunk: list index out of range"], acc, false)
      | some (choice :: _) =>
          let contentEvents :=
            match choice.delta.content with
            | some s => if s ≠ "" then [StreamEvent.content s] else []
            | none => []
          let acc' :=
            match choice.delta.toolCalls with
            | some ds => ds.foldl applyToolCallDelta acc
            | none => acc
          let finishEvents :=
            match choice.finishReason with
            | none => []
            | some fr =>
                (if fr = "tool_calls" then [StreamEvent.toolCallsEv (sortedCalls acc')] else [])
                ++ [StreamEvent.done fr (c.usage.getD ⟨0, 0, 0⟩)]
          (contentEvents ++ finishEvents, acc', false)

/-- The SSE read loop (lines 102-219): skip blanks, comments and non-data
lines, break on the `[DONE]` sentinel, surface JSON parse failures as error
events and continue, and process parsed chunks. -/
def processLines (acc : List (Nat × AccCall)) :
    List SSELine → List StreamEvent × LoopExit
  | [] => ([], .ranOut)
  | l :: rest =>
      match l with
      | .blank => processLines acc rest
      | .comment _ => processLines acc rest
      | .nonData _ => processLines acc rest
      | .doneMarker => ([], .broke)
      | .badJson e =>
          let (evs, exit) := processLines acc rest
          ((.error ("Failed to parse SSE chunk: " ++ e)) :: evs, exit)
      | .chunk c =>
          let (evs, acc', returns) := processChunk acc c
          if returns then (evs, .returned)
          else
            let (evs', exit) := processLines acc' rest
            (evs ++ evs', exit)

/-- The outcome of opening the upstream connection: a non-200 response, or a
streamed sequence of lines possibly cut short by a transport exception. -/
inductive ConnectResult where
  | httpError (status : Nat) (body : String)
  | ok (lines : List SSELine) (exc : Option TransportExc)
deriving DecidableEq, Repr

/-- `chat_stream` as a whole: missing API key short-circuits; a non-200
status yields a single error event; otherwise the line loop runs, and a
transport exception surfaces only if the loop was still consuming the
stream when it hit. -/
def chatStream (apiKeyPresent : Bool) (conn : ConnectResult) : List StreamEvent :=
  if ¬ apiKeyPresent then
    [.error "OpenRouter API key not found. Set OPENROUTER_API_KEY environment variable."]
  else
    match conn with
    | .httpError status body =>
        [.error ("OpenRouter API error (" ++ toString status ++ "): " ++ body)]
    | .ok lines exc =>
        let (evs, exit) := processLines [] lines
        match exit, exc with
        | .ranOut, some e => evs ++ [excEvent e]
        | _, _ => evs

/-! ## Conversation orchestrator (`AgentSession.handle_user_message`,
agent_session.py lines 236-439) -/

/-- A UI event sent over the WebSocket (`send_message` payloads). -/
inductive UIEvent where
  | streamChunk (content : String) (isComplete : Bool)
  | toolStart (toolName : String) (arguments : Args)
  | toolResult (toolName : String) (result : String) (success : Bool)
  | agentMessage (content : String) (usage : Usage)
  | errorEv (message : String) (recoverable : Bool)

/-- A value passed to a tool callable: a parsed JSON value, or one of the
injected internal handles (`self.manager` / `self`). -/
inductive ArgVal where
  | json (v : JVal)
  | managerRef
  | runtimeRef

/-- The observable outcome of awaiting a tool callable: a returned string,
a raised `TypeError`, or any other raised exception. -/
inductive ToolOutcome where
  | ok (r : String)
  | raiseType (e : String)
  | raiseOther (e : String)

/-- A granted tool as the session sees it: its callable (as an oracle
function of the final keyword arguments) and whether `_manager` / `_runtime`
occur in its `co_varnames`. -/
structure ToolEntry where
  impl : List (String × ArgVal) → ToolOutcome
  takesManager : Bool
  takesRuntime : Bool

/-- Session inputs that stand for external libraries and state: the granted
tool map `self.tool_schemas` and `json.loads` on argument strings
(`Except.error e` carries the `JSONDecodeError` text). -/
structure SessionCfg where
  tools : List (String × ToolEntry)
  parse : String → Except String Args

/-- `d[k] = v` on a string-keyed Python dict. -/
def assocSet {α : Type} (l : List (String × α)) (k : String) (v : α) :
    List (String × α) :=
  match l with
  | [] => [(k, v)]
  | (k', v') :: rest =>
      if k' = k then (k, v) :: rest else (k', v') :: assocSet rest k v

/-- The keyword arguments a tool callable receives: the parsed arguments
plus the injected `_manager`/`_runtime` entries (agent_session.py 317-320). -/
def mkCallArgs (entry : ToolEntry) (args : Args) : List (String × ArgVal) :=
  let base : List (String × ArgVal) := args.map fun kv => (kv.1, .json kv.2)
  let base := if entry.takesManager then assocSet base "_manager" .managerRef else base
  if entry.takesRuntime then assocSet base "_runtime" .runtimeRef else base

/-- The message the outer handler produces when recording a parse-failed
first tool call reads the never-assigned local `display_args`
(`f"Session error: {str(e)}"` on the `UnboundLocalError`; exception text as
of CPython 3.11+). -/
def sessionErrorDisplayArgs : String :=
  "Session error: cannot access local variable 'display_args' where it is not associated with a value"

/-- State threaded through the per-call tool-execution loop. `displayArgs`
models the function-local `display_args`: `none` while it has never been
assigned during this turn. -/
structure ToolLoopState where
  messages : List Msg
  accToolCalls : List ToolCallRecord
  displayArgs : Option Args
  events : List UIEvent

/-- The outcome of the `try` block around one tool call (parse, announce,
look up, invoke): the events emitted before `tool_result`, the value of the
local `display_args` afterwards, and the `result`/`success` pair. -/
structure ToolTryOut where
  preEvents : List UIEvent
  displayArgs : Option Args
  result : String
  success : Bool

/-- The `try` block of one tool call (agent_session.py 295-342). -/
def toolTry (cfg : SessionCfg) (s : ToolLoopState) (call : AccCall) : ToolTryOut :=
  match cfg.parse call.arguments with
  | .error e =>
      { preEvents := [], displayArgs := s.displayArgs
        result := "Error: Invalid JSON arguments: " ++ e, success := false }
  | .ok args =>
      let dArgs := args.filter fun kv => ! strStartsWith kv.1 "_"
      let startEv := [UIEvent.toolStart call.name dArgs]
      match assocLookup cfg.tools call.name with
      | none =>
          { preEvents := startEv, displayArgs := some dArgs
            result := "Error: Tool '" ++ call.name ++ "' not found", success := false }
      | some entry =>
          match entry.impl (mkCallArgs entry args) with
          | .ok r =>
              { preEvents := startEv, displayArgs := some dArgs
                result := r, success := true }
          | .raiseType e =>
              { preEvents := startEv, displayArgs := some dArgs
                result := "Error: Invalid arguments: " ++ e, success := false }
          | .raiseOther e =>
              { preEvents := startEv, displayArgs := some dArgs
                result := "Error executing tool: " ++ e, success := false }

/-- One iteration of the tool-execution `for` (agent_session.py 290-367):
the `try` block above, then the `tool_result` event, then recording the
call and appending the tool message. The `Bool` is true when recording the
call read the never-assigned local `display_args`, raising
`UnboundLocalError`, and the outer handler aborted the turn. -/
def execOneTool (cfg : SessionCfg) (s : ToolLoopState) (call : AccCall) :
    ToolLoopState × Bool :=
  let step := toolTry cfg s call
  let events := s.events ++ step.preEvents ++
    [UIEvent.toolResult call.name step.result step.success]
  match step.displayArgs with
  | none =>
      ({ s with
          events := events ++ [UIEvent.errorEv sessionErrorDisplayArgs false] }, true)
  | some da =>
      ({ messages := s.messages ++
            [{ role := "tool", content := some step.result, toolCallId := some call.id }]
         accToolCalls := s.accToolCalls ++
            [{ toolName := call.name, arguments := da, result := pyTake step.result 1000,
               success := ! strStartsWith step.result "Error",
               resultLength := pyLen step.result }]
         displayArgs := some da
         events := events }, false)

/-- Execute the received calls in order, stopping early when the turn
aborts. -/
def execTools (cfg : SessionCfg) (s : ToolLoopState) :
    List AccCall → ToolLoopState × Bool
  | [] => (s, false)
  | c :: rest =>
      let (s', aborted) := execOneTool cfg s c
      if aborted then (s', true) else execTools cfg s' rest

/-- How a turn ended. -/
inductive TurnOutcome where
  | completed
  | modelError
  | sessionAbort
  | limitReached
deriving DecidableEq, Repr

/-- State carried from one loop iteration to the next. -/
structure IterState where
  messages : List Msg
  accContent : String
  accToolCalls : List ToolCallRecord
  displayArgs : Option Args
  events : List UIEvent

/-- A finished turn, before the upstream-call count is attached. -/
structure TurnPart where
  events : List UIEvent
  history : List HistEntry
  saved : Bool
  outcome : TurnOutcome
  messages : List Msg

/-- A finished turn: the UI events sent, the final durable history, whether
`_save_history` ran, how many upstream model calls were made, how the turn
ended, and the final live window. -/
structure TurnResult where
  events : List UIEvent
  history : List HistEntry
  saved : Bool
  upstreamCalls : Nat
  outcome : TurnOutcome
  messages : List Msg

/-- Processing the chunks of one `chat_stream` call (the inner `async for`,
agent_session.py 264-418): `inl` means the iteration fell through or broke
out after tool calls and the outer loop continues; `inr` means the turn
finished (`done`, model `error`, or session abort). -/
def runChunks (cfg : SessionCfg) (userInput : String) (history : List HistEntry) :
    List StreamEvent → IterState → IterState ⊕ TurnPart
  | [], st => .inl st
  | c :: rest, st =>
      match c with
      | .content d =>
          runChunks cfg userInput history rest
            { st with
                accContent := st.accContent ++ d
                events := st.events ++ [.streamChunk d false] }
      | .toolCallsEv calls =>
          let assistantMsg : Msg :=
            { role := "assistant"
              content := if st.accContent = "" then none else some st.accContent
              toolCalls := calls }
          let s0 : ToolLoopState :=
            { messages := st.messages ++ [assistantMsg]
              accToolCalls := st.accToolCalls
              displayArgs := st.displayArgs
              events := st.events }
          let s' := (execTools cfg s0 calls).1
          if (execTools cfg s0 calls).2 then
            .inr { events := s'.events, history := history, saved := false,
                   outcome := .sessionAbort, messages := s'.messages }
          else
            .inl { messages := s'.messages, accContent := "",
                   accToolCalls := s'.accToolCalls, displayArgs := s'.displayArgs,
                   events := s'.events }
      | .done _ usage =>
          let events := st.events ++
            [.streamChunk "" true, .agentMessage st.accContent usage]
          let history' := history ++
            [ { role := "user", message := userInput, meta := ⟨[], none⟩ },
              { role := "agent", message := st.accContent,
                meta := ⟨st.accToolCalls, some usage⟩ } ]
          .inr { events := events, history := history', saved := true,
                 outcome := .completed, messages := st.messages }
      | .error m =>
          .inr { events := st.events ++ [.errorEv m true], history := history,
                 saved := false, outcome := .modelError, messages := st.messages }

/-- The bounded tool-execution loop (`for iteration in range(max_iterations)`
with `max_iterations = 10`): `i` is the iteration index (and the count of
upstream calls already made), `fuel` the remaining iterations. `oracle i`
is the event sequence the i-th `chat_stream` call yields. -/
def runIterations (cfg : SessionCfg) (oracle : Nat → List StreamEvent)
    (userInput : String) (history : List HistEntry) :
    Nat → Nat → IterState → TurnResult
  | i, 0, st =>
      { events := st.events ++
          [.errorEv "Tool execution limit reached (10 iterations)" false]
        history := history, saved := false, upstreamCalls := i
        outcome := .limitReached, messages := st.messages }
  | i, fuel + 1, st =>
      match runChunks cfg userInput history (oracle i) st with
      | .inl st' => runIterations cfg oracle userInput history (i + 1) fuel st'
      | .inr p =>
          { events := p.events, history := p.history, saved := p.saved,
            upstreamCalls := i + 1, outcome := p.outcome, messages := p.messages }

/-- `handle_user_message`: build the window, then run at most ten upstream
calls. -/
def handleUserMessage (cfg : SessionCfg) (systemPrompt : String)
    (history : List HistEntry) (oracle : Nat → List StreamEvent)
    (userInput : String) : TurnResult :=
  runIterations cfg oracle userInput history 0 10
    { messages := buildMessages systemPrompt history userInput
      accContent := "", accToolCalls := [], displayArgs := none, events := [] }

/-! ## Concrete instances used by the theorems -/

/-- `json.loads` restricted to the argument strings occurring in the
concrete scenarios below: the empty object parses, anything else raises
`JSONDecodeError` with CPython's message for a non-JSON payload. -/
def jsonParseOracle : String → Except String Args :=
  fun s =>
    if s = "\x7b\x7d" then .ok []
    else .error "Expecting value: line 1 column 1 (char 0)"

/-- The always-granted `get_context_info` tool: declares `_runtime`, returns
an informational string. -/
def getContextInfoEntry : ToolEntry :=
  { impl := fun _ => .ok "No usage data available yet."
    takesManager := false
    takesRuntime := true }

/-- `read_file` invoked on a missing file: returns (not raises) an
`Error`-prefixed string, as tools.py lines 220-225 do. -/
def readFileMissingEntry : ToolEntry :=
  { impl := fun _ => .ok "Error: File 'notes.txt' not found"
    takesManager := false
    takesRuntime := false }

/-- A session for an agent with no capabilities: only `get_context_info`
is granted. -/
def baseSession : SessionCfg :=
  { tools := [("get_context_info", getContextInfoEntry)]
    parse := jsonParseOracle }

/-- A session for an agent granted `file-operations` (the `read_file` entry
suffices for the scenarios below). -/
def fileSession : SessionCfg :=
  { tools := [("read_file", readFileMissingEntry),
              ("get_context_info", getContextInfoEntry)]
    parse := jsonParseOracle }

/-- An adversarial model: every response requests another (well-formed)
tool call. -/
def adversarialOracle : Nat → List StreamEvent :=
  fun _ => [.toolCallsEv [⟨"call_1", "function", "get_context_info", "\x7b\x7d"⟩]]

/-- A model response requesting an ungranted tool with non-JSON arguments. -/
def c1Oracle : Nat → List StreamEvent :=
  fun _ => [.toolCallsEv [⟨"call_7", "function", "exec_shell", "not json"⟩]]

/-- A model response whose first tool call of the turn carries non-JSON
arguments. -/
def c6Oracle : Nat → List StreamEvent :=
  fun _ => [.toolCallsEv [⟨"call_1", "function", "read_file", "not json"⟩]]

/-- An ungranted-tool call with well-formed arguments. -/
def ungrantedCall : AccCall := ⟨"call_9", "function", "exec_shell", "\x7b\x7d"⟩

/-- A granted `read_file` call with well-formed arguments. -/
def readCall : AccCall := ⟨"call_3", "function", "read_file", "\x7b\x7d"⟩

/-- A streamed tool-call delta carrying only an index and an arguments
fragment. -/
def argFragment (i : Nat) (s : String) : ToolCallDelta :=
  ⟨some i, none, none, some ⟨none, some s⟩⟩

/-- An upstream chunk carrying only tool-call delta fragments. -/
def toolDeltaChunk (ds : List ToolCallDelta) : UpChunk :=
  { choices := some [{ delta := { toolCalls := some ds } }] }

/-- An upstream chunk carrying only `finish_reason = "tool_calls"`. -/
def finishToolCallsChunk : UpChunk :=
  { choices := some [{ finishReason := some "tool_calls" }] }

/-! # Theorems -/

/-- C9: every Python type annotation that schema extraction maps from a
tool's declared signature is sent to its claimed wire type — `str` to
`string`, `int` to `integer`, `float` to `number`, `bool` to `boolean`,
`list` to `array` — and every other (unrecognized) annotation defaults to
`string`. -/
theorem c9_type_inference_wire_types :
    (∀ pt ∈ toolMappedAnnotations, pythonTypeToJsonType pt = specWireType pt)
    ∧ pythonTypeToJsonType (.obj .pyStr) = "string"
    ∧ pythonTypeToJsonType (.obj .pyInt) = "integer"
    ∧ pythonTypeToJsonType (.obj .pyFloat) = "number"
    ∧ pythonTypeToJsonType (.obj .pyBool) = "boolean"
    ∧ pythonTypeToJsonType (.obj .pyList) = "array" := by
  refine ⟨?_, rfl, rfl, rfl, rfl, rfl⟩
  decide

/-- C9 witness: the mapping evaluated on a concrete annotation from
`create_agent`'s signature (`list[str] | None`, unrecognized, defaults to
`string`). -/
theorem c9_type_inference_wire_types_witness :
    pythonTypeToJsonType (.obj .pyOptionalListStr) = specWireType (.obj .pyOptionalListStr) :=
  c9_type_inference_wire_types.1 (.obj .pyOptionalListStr) (by decide)

/-- Per-entry round trip of the transcript format. -/
theorem loadEntry_saveEntry (e : HistEntry) : loadEntry (saveEntry e) = e := by
  cases e with
  | mk role msg meta =>
      cases meta with
      | mk tc u =>
          by_cases htc : tc.isEmpty
          · simp [saveEntry, loadEntry, htc, List.isEmpty_iff.mp htc]
          · simp [saveEntry, loadEntry, htc]

/-- C5: serializing a durable history to the persisted transcript format and
reloading it reproduces the identical ordered message list — for every
history, hence in particular any containing a user message, a tool call and
a tool result. -/
theorem c5_history_round_trip (h : List HistEntry) : loadHistory (saveHistory h) = h := by
  unfold loadHistory saveHistory
  rw [List.map_map]
  simp [Function.comp_def, loadEntry_saveEntry]

/-- Membership in a dict-style key insertion. -/
theorem mem_dictInsertKey {ks : List String} {k t : String} :
    t ∈ dictInsertKey ks k ↔ t ∈ ks ∨ t = k := by
  unfold dictInsertKey
  split
  · rename_i hk
    constructor
    · exact fun ht => Or.inl ht
    · rintro (ht | rfl)
      · exact ht
      · exact hk
  · simp [List.mem_append]

/-- Membership after the inner `_load_tools` loop over one capability's
tool list. -/
theorem mem_addCapTools {cap : Capability} {acc : List String} {t : String} :
    t ∈ addCapTools acc cap ↔
      t ∈ acc ∨ (t ∈ cap.tools ∧ (assocLookup TOOL_SCHEMAS t).isSome) := by
  unfold addCapTools
  generalize cap.tools = l
  induction l generalizing acc with
  | nil => simp
  | cons hd tl ih =>
      rw [List.foldl_cons, ih]
      by_cases hp : (assocLookup TOOL_SCHEMAS hd).isSome
      · simp only [hp, if_true]
        constructor
        · rintro (h | ⟨htl, hP⟩)
          · rcases mem_dictInsertKey.mp h with h' | rfl
            · exact Or.inl h'
            · exact Or.inr ⟨List.mem_cons_self _ _, hp⟩
          · exact Or.inr ⟨List.mem_cons_of_mem _ htl, hP⟩
        · rintro (h | ⟨hm, hP⟩)
          · exact Or.inl (mem_dictInsertKey.mpr (Or.inl h))
          · rcases List.mem_cons.mp hm with rfl | htl
            · exact Or.inl (mem_dictInsertKey.mpr (Or.inr rfl))
            · exact Or.inr ⟨htl, hP⟩
      · simp only [hp, if_false]
        constructor
        · rintro (h | ⟨htl, hP⟩)
          · exact Or.inl h
          · exact Or.inr ⟨List.mem_cons_of_mem _ htl, hP⟩
        · rintro (h | ⟨hm, hP⟩)
          · exact Or.inl h
          · rcases List.mem_cons.mp hm with rfl | htl
            · exact absurd hP hp
            · exact Or.inr ⟨htl, hP⟩

/-- Membership after the outer `_load_tools` loop over the capability
names. -/
theorem mem_foldl_addCapability {caps : List String} {acc : List String} {t : String} :
    t ∈ caps.foldl addCapability acc ↔
      t ∈ acc ∨ ∃ c ∈ caps, ∃ cap, assocLookup CAPABILITIES c = some cap ∧
        t ∈ cap.tools ∧ (assocLookup TOOL_SCHEMAS t).isSome := by
  induction caps generalizing acc with
  | nil => simp
  | cons hd tl ih =>
      rw [List.foldl_cons, ih]
      constructor
      · rintro (h | ⟨c, hc, cap, hcap, hmem, hP⟩)
        · unfold addCapability at h
          split at h
          · exact Or.inl h
          · rename_i cap hcap
            rcases mem_addCapTools.mp h with h' | ⟨hmem, hP⟩
            · exact Or.inl h'
            · exact Or.inr ⟨hd, List.mem_cons_self _ _, cap, hcap, hmem, hP⟩
        · exact Or.inr ⟨c, List.mem_cons_of_mem _ hc, cap, hcap, hmem, hP⟩
      · rintro (h | ⟨c, hc, cap, hcap, hmem, hP⟩)
        · left
          unfold addCapability
          split
          · exact h
          · exact mem_addCapTools.mpr (Or.inl h)
        · rcases List.mem_cons.mp hc with rfl | htl
          · left
            unfold addCapability
            rw [hcap]
            exact mem_addCapTools.mpr (Or.inr ⟨hmem, hP⟩)
          · exact Or.inr ⟨c, htl, cap, hcap, hmem, hP⟩

/-- C2: the granted-tool map's keys are exactly the union, over granted
capability names registered in `CAPABILITIES`, of their declared tool names
that exist in `TOOL_SCHEMAS`, plus the always-available `get_context_info`;
and unregistered capability names are silently ignored. -/
theorem c2_granted_tools_resolution :
    (∀ (caps : List String) (t : String),
      t ∈ loadTools caps ↔
        ((∃ c ∈ caps, ∃ cap, assocLookup CAPABILITIES c = some cap ∧
            t ∈ cap.tools ∧ (assocLookup TOOL_SCHEMAS t).isSome)
         ∨ t = "get_context_info"))
    ∧ (∀ (c : String) (caps : List String), assocLookup CAPABILITIES c = none →
        loadTools (c :: caps) = loadTools caps) := by
  constructor
  · intro caps t
    unfold loadTools
    have hg : (assocLookup TOOL_SCHEMAS "get_context_info").isSome = true := by decide
    rw [if_pos hg, mem_dictInsertKey, mem_foldl_addCapability]
    simp
  · intro c caps hc
    unfold loadTools
    rw [List.foldl_cons]
    have : addCapability [] c = [] := by
      unfold addCapability
      rw [hc]
    rw [this]

/-- C2 witness: an unregistered capability name contributes nothing, and the
characterization evaluated at a concrete grant. -/
theorem c2_granted_tools_resolution_witness :
    loadTools ("quantum-sensing" :: ["file-operations"]) = loadTools ["file-operations"]
    ∧ ("read_file" ∈ loadTools ["file-operations"] ↔ True) :=
  ⟨c2_granted_tools_resolution.2 "quantum-sensing" ["file-operations"] (by rfl),
   by rw [c2_granted_tools_resolution.1]; simp; decide⟩

/-- History images never carry the `system` role. -/
theorem histEntryToMsg_role_ne_system (e : HistEntry) :
    ((histEntryToMsg e).role == "system") = false := by
  unfold histEntryToMsg
  by_cases h : e.role = "user" <;> simp [h]

/-- C8 (amended): when the assembled capability-derived prompt is non-empty,
the window sent upstream is exactly one system message, then the images of
the last 20 history entries, then the current user message; older history is
dropped from the window (`take`/`drop` split) while the durable list is
untouched. -/
theorem c8_message_window (sp : String) (h : List HistEntry) (input : String)
    (hsp : sp ≠ "") :
    buildMessages sp h input =
      { role := "system", content := some sp } ::
        ((h.drop (h.length - 20)).map histEntryToMsg ++
          [{ role := "user", content := some input }])
    ∧ ((buildMessages sp h input).filter (fun m => m.role == "system")).length = 1
    ∧ (buildMessages sp h input).length = min h.length 20 + 2
    ∧ h.take (h.length - 20) ++ h.drop (h.length - 20) = h := by
  have h1 : buildMessages sp h input =
      { role := "system", content := some sp } ::
        ((h.drop (h.length - 20)).map histEntryToMsg ++
          [{ role := "user", content := some input }]) := by
    unfold buildMessages
    rw [if_pos hsp]
    simp
  refine ⟨h1, ?_, ?_, List.take_append_drop _ _⟩
  · rw [h1]
    have hmap : ((h.drop (h.length - 20)).map histEntryToMsg).filter
        (fun m => m.role == "system") = [] := by
      rw [List.filter_eq_nil_iff]
      intro m hm
      rcases List.mem_map.mp hm with ⟨e, _, rfl⟩
      simp [histEntryToMsg_role_ne_system]
    rw [List.filter_cons, List.filter_append, hmap]
    rfl
  · rw [h1]
    simp only [List.length_cons, List.length_append, List.length_map,
      List.length_drop, List.length_nil]
    omega

/-- C8 counterexample: an agent with an empty base prompt and no
capabilities yields a window with no system message at all, refuting
"exactly one system message" as stated. -/
theorem c8_counterexample :
    ¬ (((buildMessages (buildSystemPrompt "" []) [] "hello").filter
          (fun m => m.role == "system")).length = 1) := by
  have h : (buildMessages (buildSystemPrompt "" []) [] "hello").filter
      (fun m => m.role == "system") = [] := rfl
  rw [h]
  simp

/-- C8 witness: the amended window shape evaluated for an agent granted
`file-operations` (non-empty assembled prompt) and an empty history. -/
theorem c8_message_window_witness :
    ((buildMessages (buildSystemPrompt "" ["file-operations"]) [] "hi").filter
        (fun m => m.role == "system")).length = 1 :=
  (c8_message_window (buildSystemPrompt "" ["file-operations"]) [] "hi"
    (by decide)).2.1

/-- Looking up a key just set finds the set value. -/
theorem natLookup_natSet_self {α : Type} (l : List (Nat × α)) (k : Nat) (v : α) :
    natLookup (natSet l k v) k = some v := by
  induction l with
  | nil => simp [natSet, natLookup]
  | cons p rest ih =>
      obtain ⟨k', v'⟩ := p
      by_cases hk : k' = k
      · simp [natSet, hk, natLookup]
      · simpa [natSet, hk, natLookup, List.find?_cons,
          show (k' == k) = false from by simpa using hk] using ih

/-- Setting the same key twice keeps only the last value. -/
theorem natSet_natSet_self {α : Type} (l : List (Nat × α)) (k : Nat) (v w : α) :
    natSet (natSet l k v) k w = natSet l k w := by
  induction l with
  | nil => simp [natSet]
  | cons p rest ih =>
      obtain ⟨k', v'⟩ := p
      by_cases hk : k' = k
      · simp [natSet, hk]
      · simp [natSet, hk, ih]

/-- Splitting an arguments fragment across two deltas at the same index
accumulates to the same final string as one merged fragment. -/
theorem applyToolCallDelta_split (acc : List (Nat × AccCall)) (i : Nat) (a b : String) :
    applyToolCallDelta (applyToolCallDelta acc (argFragment i a)) (argFragment i b)
      = applyToolCallDelta acc (argFragment i (a ++ b)) := by
  unfold applyToolCallDelta argFragment
  simp only [Option.getD_some, Option.getD_none]
  rw [natLookup_natSet_self, natSet_natSet_self]
  simp only [Option.getD_some]
  rw [String.append_assoc]

/-- The accumulator entry after one delta: first occurrence starts from the
empty accumulator; `id`, `type` and `name` are overwritten exactly when the
fragment carries them; an arguments fragment is appended at the end. -/
theorem applyToolCallDelta_lookup (acc : List (Nat × AccCall)) (d : ToolCallDelta) :
    natLookup (applyToolCallDelta acc d) (d.index.getD 0) =
      some
        { id := d.id.getD ((natLookup acc (d.index.getD 0)).getD emptyAccCall).id
          typeField :=
            d.typeField.getD ((natLookup acc (d.index.getD 0)).getD emptyAccCall).typeField
          name :=
            ((d.func.bind FuncDelta.name)).getD
              ((natLookup acc (d.index.getD 0)).getD emptyAccCall).name
          arguments :=
            ((natLookup acc (d.index.getD 0)).getD emptyAccCall).arguments ++
              ((d.func.bind FuncDelta.arguments)).getD "" } := by
  unfold applyToolCallDelta
  rw [natLookup_natSet_self]
  cases hf : d.func with
  | none => simp [hf, Option.bind]
  | some f => simp [hf, Option.bind]

/-- C4: tool-call fragment accumulation is initialization-on-first-sight,
overwrite-`id`/`name`-when-present, append-arguments-in-arrival-order; in
particular the same argument text split across one or two fragments yields
the identical final string, end to end through the SSE loop; and the
`toolCalls` emission lists the accumulated calls by ascending index. -/
theorem c4_fragment_accumulation :
    (∀ (acc : List (Nat × AccCall)) (i : Nat) (a b : String),
      applyToolCallDelta (applyToolCallDelta acc (argFragment i a)) (argFragment i b)
        = applyToolCallDelta acc (argFragment i (a ++ b)))
    ∧ (∀ (acc : List (Nat × AccCall)) (d : ToolCallDelta),
        natLookup (applyToolCallDelta acc d) (d.index.getD 0) =
          some
            { id := d.id.getD ((natLookup acc (d.index.getD 0)).getD emptyAccCall).id
              typeField :=
                d.typeField.getD ((natLookup acc (d.index.getD 0)).getD emptyAccCall).typeField
              name :=
                ((d.func.bind FuncDelta.name)).getD
                  ((natLookup acc (d.index.getD 0)).getD emptyAccCall).name
              arguments :=
                ((natLookup acc (d.index.getD 0)).getD emptyAccCall).arguments ++
                  ((d.func.bind FuncDelta.arguments)).getD "" })
    ∧ (∀ (a b : String),
        processLines []
          [.chunk (toolDeltaChunk [argFragment 0 a]),
           .chunk (toolDeltaChunk [argFragment 0 b]),
           .chunk finishToolCallsChunk]
          = processLines []
              [.chunk (toolDeltaChunk [argFragment 0 (a ++ b)]),
               .chunk finishToolCallsChunk])
    ∧ (∀ acc : List (Nat × AccCall),
        sortedCalls acc =
          ((acc.map Prod.fst).insertionSort (· ≤ ·)).map
            (fun i => (natLookup acc i).getD emptyAccCall)
        ∧ List.Sorted (· ≤ ·) ((acc.map Prod.fst).insertionSort (· ≤ ·))
        ∧ ((acc.map Prod.fst).insertionSort (· ≤ ·)).Perm (acc.map Prod.fst)) := by
  refine ⟨applyToolCallDelta_split, applyToolCallDelta_lookup, ?_, ?_⟩
  · intro a b
    simp only [processLines, processChunk, toolDeltaChunk, finishToolCallsChunk,
      List.foldl_cons, List.foldl_nil]
    rw [applyToolCallDelta_split]
    simp
  · intro acc
    exact ⟨rfl, List.sorted_insertionSort _ _, List.perm_insertionSort _ _⟩

/-- A turn finished inside the chunk loop never reports the limit outcome:
only `done`, a model error, or a session abort end it there. -/
theorem runChunks_inr_outcome (cfg : SessionCfg) (input : String)
    (history : List HistEntry) :
    ∀ (chunks : List StreamEvent) (st : IterState) (p : TurnPart),
      runChunks cfg input history chunks st = .inr p → p.outcome ≠ .limitReached := by
  intro chunks
  induction chunks with
  | nil =>
      intro st p h
      simp [runChunks] at h
  | cons c rest ih =>
      intro st p h
      cases c with
      | content d =>
          simp only [runChunks] at h
          exact ih _ _ h
      | toolCallsEv calls =>
          simp only [runChunks] at h
          split at h <;> split at h <;>
            first
              | (injection h with h'; rw [← h']; simp)
              | simp at h
      | done fr usage =>
          simp only [runChunks] at h
          injection h with h'
          rw [← h']
          simp
      | error m =>
          simp only [runChunks] at h
          injection h with h'
          rw [← h']
          simp

/-- The loop makes at most one upstream call per remaining iteration. -/
theorem runIterations_upstream_le (cfg : SessionCfg) (oracle : Nat → List StreamEvent)
    (input : String) (history : List HistEntry) :
    ∀ (fuel i : Nat) (st : IterState),
      (runIterations cfg oracle input history i fuel st).upstreamCalls ≤ i + fuel := by
  intro fuel
  induction fuel with
  | zero =>
      intro i st
      simp [runIterations]
  | succ fuel ih =>
      intro i st
      simp only [runIterations]
      cases h : runChunks cfg input history (oracle i) st with
      | inl st' =>
          calc (runIterations cfg oracle input history (i + 1) fuel st').upstreamCalls
              ≤ (i + 1) + fuel := ih (i + 1) st'
            _ = i + (fuel + 1) := by omega
      | inr p => simp

/-- When the loop runs out of fuel, the final event is the fatal limit
error, the durable history is untouched, and nothing was saved. -/
theorem runIterations_limit (cfg : SessionCfg) (oracle : Nat → List StreamEvent)
    (input : String) (history : List HistEntry) :
    ∀ (fuel i : Nat) (st : IterState),
      (runIterations cfg oracle input history i fuel st).outcome = .limitReached →
        (runIterations cfg oracle input history i fuel st).events.getLast? =
          some (.errorEv "Tool execution limit reached (10 iterations)" false)
        ∧ (runIterations cfg oracle input history i fuel st).history = history
        ∧ (runIterations cfg oracle input history i fuel st).saved = false := by
  intro fuel
  induction fuel with
  | zero =>
      intro i st _
      refine ⟨?_, rfl, rfl⟩
      simp [runIterations, List.getLast?_concat]
  | succ fuel ih =>
      intro i st hout
      simp only [runIterations] at hout ⊢
      cases h : runChunks cfg input history (oracle i) st with
      | inl st' =>
          rw [h] at hout
          exact ih (i + 1) st' hout
      | inr p =>
          rw [h] at hout
          simp only at hout
          exact absurd hout (runChunks_inr_outcome cfg input history _ _ _ h)

/-- C3: every turn makes at most 10 upstream model calls, whatever the model
streams back; and a turn that ends by exhausting the iteration ceiling ends
with the fatal "Tool execution limit reached (10 iterations)" error event
and leaves the durable history unpersisted and unchanged. -/
theorem c3_iteration_ceiling :
    (∀ (cfg : SessionCfg) (sp : String) (history : List HistEntry)
        (oracle : Nat → List StreamEvent) (input : String),
      (handleUserMessage cfg sp history oracle input).upstreamCalls ≤ 10)
    ∧ (∀ (cfg : SessionCfg) (sp : String) (history : List HistEntry)
        (oracle : Nat → List StreamEvent) (input : String),
        (handleUserMessage cfg sp history oracle input).outcome = .limitReached →
          (handleUserMessage cfg sp history oracle input).events.getLast? =
            some (.errorEv "Tool execution limit reached (10 iterations)" false)
          ∧ (handleUserMessage cfg sp history oracle input).history = history
          ∧ (handleUserMessage cfg sp history oracle input).saved = false) := by
  constructor
  · intro cfg sp history oracle input
    exact runIterations_upstream_le cfg oracle input history 10 0 _
  · intro cfg sp history oracle input hout
    exact runIterations_limit cfg oracle input history 10 0 _ hout

/-- C3 witness: an adversarial model that requests a tool call on every
response drives exactly 10 upstream calls, then the fatal limit error, with
nothing persisted. -/
theorem c3_iteration_ceiling_witness :
    (handleUserMessage baseSession "" [] adversarialOracle "loop").upstreamCalls = 10
    ∧ ((handleUserMessage baseSession "" [] adversarialOracle "loop").events.getLast? =
        some (.errorEv "Tool execution limit reached (10 iterations)" false)
       ∧ (handleUserMessage baseSession "" [] adversarialOracle "loop").history = []
       ∧ (handleUserMessage baseSession "" [] adversarialOracle "loop").saved = false) :=
  ⟨rfl, c3_iteration_ceiling.2 baseSession "" [] adversarialOracle "loop" rfl⟩

/-- C7 (amended): every transport exception — timeout included — surfaces
through the same channel: a single model-stream error event, which the
session forwards to the caller as an `error` UI event whose recoverable
flag is `true` (not `false`); session-level failures and the iteration
ceiling are the paths flagged non-recoverable. -/
theorem c7_transport_error_channel (exc : TransportExc) (cfg : SessionCfg)
    (sp : String) (history : List HistEntry) (input : String) :
    chatStream true (.ok [] (some exc)) = [.error (excMsg exc)]
    ∧ (handleUserMessage cfg sp history
          (fun _ => chatStream true (.ok [] (some exc))) input).events
        = [.errorEv (excMsg exc) true]
    ∧ (handleUserMessage cfg sp history
          (fun _ => chatStream true (.ok [] (some exc))) input).outcome
        = .modelError := by
  cases exc <;> exact ⟨rfl, rfl, rfl⟩

/-- C7 counterexample: an upstream timeout reaches the caller as an error
event with `recoverable = true`; no error event with `recoverable = false`
is delivered, refuting the claimed `false` flag. -/
theorem c7_counterexample :
    (handleUserMessage baseSession "" []
        (fun _ => chatStream true (.ok [] (some .timeout))) "hi").events
      = [.errorEv "Request timed out after 60.0 seconds" true]
    ∧ UIEvent.errorEv "Request timed out after 60.0 seconds" false ∉
        (handleUserMessage baseSession "" []
            (fun _ => chatStream true (.ok [] (some .timeout))) "hi").events := by
  refine ⟨rfl, ?_⟩
  intro hmem
  rw [(rfl :
    (handleUserMessage baseSession "" []
        (fun _ => chatStream true (.ok [] (some .timeout))) "hi").events
      = [.errorEv "Request timed out after 60.0 seconds" true])] at hmem
  rcases List.mem_singleton.mp hmem with h
  injection h with h1 h2
  exact absurd h2 (by decide)

/-- C1 (amended): a tool-call request whose name is not in the session's
granted map never invokes any callable, regardless of the global catalog:
when its arguments parse, the session produces exactly the synthetic
"tool not found" result (events, history record with `success = false`,
and tool message fully determined, independent of every callable); when
they do not parse, it produces the synthetic "invalid arguments" result
instead. -/
theorem c1_ungranted_tool_unreachable (cfg : SessionCfg) (s : ToolLoopState)
    (call : AccCall) (hname : assocLookup cfg.tools call.name = none) :
    (∀ args, cfg.parse call.arguments = .ok args →
      execOneTool cfg s call =
        ({ messages := s.messages ++
            [{ role := "tool"
               content := some ("Error: Tool '" ++ call.name ++ "' not found")
               toolCallId := some call.id }]
           accToolCalls := s.accToolCalls ++
            [{ toolName := call.name
               arguments := args.filter fun kv => ! strStartsWith kv.1 "_"
               result := pyTake ("Error: Tool '" ++ call.name ++ "' not found") 1000
               success := false
               resultLength := pyLen ("Error: Tool '" ++ call.name ++ "' not found") }]
           displayArgs := some (args.filter fun kv => ! strStartsWith kv.1 "_")
           events := s.events ++
             [.toolStart call.name (args.filter fun kv => ! strStartsWith kv.1 "_"),
              .toolResult call.name ("Error: Tool '" ++ call.name ++ "' not found") false] },
         false))
    ∧ (∀ e, cfg.parse call.arguments = .error e →
        (execOneTool cfg s call).1.events =
          s.events ++ [.toolResult call.name ("Error: Invalid JSON arguments: " ++ e) false]
            ++ (if s.displayArgs.isNone then [.errorEv sessionErrorDisplayArgs false]
                else [])) := by
  constructor
  · intro args hargs
    unfold execOneTool toolTry
    rw [hargs, hname]
    simp only []
    have hsw : strStartsWith ("Error: Tool '" ++ call.name ++ "' not found") "Error" = true := rfl
    simp [hsw]
  · intro e hargs
    unfold execOneTool toolTry
    rw [hargs]
    cases hd : s.displayArgs with
    | none => simp [hd, List.append_assoc]
    | some da => simp [hd, List.append_assoc]

/-- C1 counterexample: the model requests the ungranted `exec_shell` (which
does exist in the global `TOOL_SCHEMAS`) with non-JSON arguments; the
session produces the synthetic invalid-arguments result, not the claimed
"tool not found" result. -/
theorem c1_counterexample :
    (handleUserMessage baseSession "" [] c1Oracle "run it").events =
      [.toolResult "exec_shell"
          "Error: Invalid JSON arguments: Expecting value: line 1 column 1 (char 0)" false,
       .errorEv sessionErrorDisplayArgs false]
    ∧ UIEvent.toolResult "exec_shell" "Error: Tool 'exec_shell' not found" false ∉
        (handleUserMessage baseSession "" [] c1Oracle "run it").events
    ∧ (assocLookup TOOL_SCHEMAS "exec_shell").isSome = true := by
  refine ⟨rfl, ?_, rfl⟩
  intro hmem
  rw [(rfl :
    (handleUserMessage baseSession "" [] c1Oracle "run it").events =
      [.toolResult "exec_shell"
          "Error: Invalid JSON arguments: Expecting value: line 1 column 1 (char 0)" false,
       .errorEv sessionErrorDisplayArgs false])] at hmem
  rcases List.mem_cons.mp hmem with h | hmem
  · injection h with h1 h2 h3
    exact absurd h2 (by decide)
  · rcases List.mem_cons.mp hmem with h | hmem
    · exact UIEvent.noConfusion h
    · exact absurd hmem (List.not_mem_nil _)

/-- C1 witness: the not-found path evaluated at a concrete ungranted call
with well-formed arguments. -/
theorem c1_ungranted_tool_unreachable_witness :
    execOneTool baseSession ⟨[], [], none, []⟩ ungrantedCall =
      ({ messages :=
            [{ role := "tool"
               content := some "Error: Tool 'exec_shell' not found"
               toolCallId := some "call_9" }]
         accToolCalls :=
            [{ toolName := "exec_shell"
               arguments := []
               result := "Error: Tool 'exec_shell' not found"
               success := false
               resultLength := pyLen "Error: Tool 'exec_shell' not found" }]
         displayArgs := some []
         events := [.toolStart "exec_shell" [],
            .toolResult "exec_shell" "Error: Tool 'exec_shell' not found" false] },
       false) :=
  (c1_ungranted_tool_unreachable baseSession ⟨[], [], none, []⟩ ungrantedCall rfl).1 [] rfl

/-- C6 (the code at the claim's failing input): when the first tool call of
a turn carries arguments that fail to parse, recording the call reads the
never-assigned local `display_args` and the outer handler aborts the whole
turn with a fatal session error — the error result is never appended to the
window and no further model call is made, contradicting the intended
never-abort tool-error handling. -/
theorem c6_parse_failure_aborts_turn :
    (handleUserMessage fileSession "" [] c6Oracle "read my notes").outcome = .sessionAbort
    ∧ (handleUserMessage fileSession "" [] c6Oracle "read my notes").upstreamCalls = 1
    ∧ (handleUserMessage fileSession "" [] c6Oracle "read my notes").events =
        [.toolResult "read_file"
            "Error: Invalid JSON arguments: Expecting value: line 1 column 1 (char 0)" false,
         .errorEv sessionErrorDisplayArgs false]
    ∧ (handleUserMessage fileSession "" [] c6Oracle "read my notes").saved = false
    ∧ (handleUserMessage fileSession "" [] c6Oracle "read my notes").history = []
    ∧ ((handleUserMessage fileSession "" [] c6Oracle "read my notes").messages.filter
        (fun m => m.role == "tool")) = [] :=
  ⟨rfl, rfl, rfl, rfl, rfl, rfl⟩

/-- C10: for a tool call whose callable returns without raising, the
`tool_result` UI event carries `success = true`, while the history record's
flag is `! strStartsWith result "Error"`; a raising callable yields a UI
flag of `false`; and concretely, `read_file` on a missing file (an
`Error`-prefixed return, no raise) yields UI `success = true` but a history
record with `success = false`. -/
theorem c10_success_flags :
    (∀ (cfg : SessionCfg) (s : ToolLoopState) (call : AccCall) (args : Args)
        (entry : ToolEntry) (r : String),
      cfg.parse call.arguments = .ok args →
      assocLookup cfg.tools call.name = some entry →
      entry.impl (mkCallArgs entry args) = .ok r →
      (execOneTool cfg s call).1.events =
        s.events ++ [.toolStart call.name (args.filter fun kv => ! strStartsWith kv.1 "_"),
                     .toolResult call.name r true]
      ∧ (execOneTool cfg s call).1.accToolCalls =
          s.accToolCalls ++
            [{ toolName := call.name
               arguments := args.filter fun kv => ! strStartsWith kv.1 "_"
               result := pyTake r 1000
               success := ! strStartsWith r "Error"
               resultLength := pyLen r }])
    ∧ (∀ (cfg : SessionCfg) (s : ToolLoopState) (call : AccCall) (args : Args)
        (entry : ToolEntry) (e : String),
      cfg.parse call.arguments = .ok args →
      assocLookup cfg.tools call.name = some entry →
      entry.impl (mkCallArgs entry args) = .raiseOther e →
      (execOneTool cfg s call).1.events =
        s.events ++ [.toolStart call.name (args.filter fun kv => ! strStartsWith kv.1 "_"),
                     .toolResult call.name ("Error executing tool: " ++ e) false])
    ∧ ((execOneTool fileSession ⟨[], [], none, []⟩ readCall).1.events =
          [.toolStart "read_file" [],
           .toolResult "read_file" "Error: File 'notes.txt' not found" true]
        ∧ (execOneTool fileSession ⟨[], [], none, []⟩ readCall).1.accToolCalls =
            [{ toolName := "read_file", arguments := [],
               result := "Error: File 'notes.txt' not found", success := false,
               resultLength := pyLen "Error: File 'notes.txt' not found" }]) := by
  refine ⟨?_, ?_, rfl, rfl⟩
  · intro cfg s call args entry r hargs hlook himpl
    unfold execOneTool toolTry
    simp [hargs, hlook, himpl]
  · intro cfg s call args entry e hargs hlook himpl
    unfold execOneTool toolTry
    simp [hargs, hlook, himpl]

/-- C10 witness: the general flag computation applied at the concrete
missing-file `read_file` call. -/
theorem c10_success_flags_witness :
    (execOneTool fileSession ⟨[], [], none, []⟩ readCall).1.events =
      [] ++ [.toolStart "read_file" ([].filter fun kv => ! strStartsWith kv.1 "_"),
             .toolResult "read_file" "Error: File 'notes.txt' not found" true]
    ∧ (execOneTool fileSession ⟨[], [], none, []⟩ readCall).1.accToolCalls =
        [] ++
          [{ toolName := "read_file"
             arguments := [].filter fun kv => ! strStartsWith kv.1 "_"
             result := pyTake "Error: File 'notes.txt' not found" 1000
             success := ! strStartsWith "Error: File 'notes.txt' not found" "Error"
             resultLength := pyLen "Error: File 'notes.txt' not found" }] :=
  c10_success_flags.1 fileSession ⟨[], [], none, []⟩ readCall [] readFileMissingEntry
    "Error: File 'notes.txt' not found" rfl rfl rfl

end Aba
